import Mathlib

/-!
Verification of the immutable snapshot & versioning engine of the
TAC-PMC construction-site management backend, embedded shallowly from
`backend/project_management_routes.py` and the snapshot-service contract.
The route handlers are translated from the source; the snapshot
service/engine internals (`core/snapshot_service.py`,
`core/snapshot_engine.py`) are not part of the provided sources, so their
operations are modelled from the specification (sections 4.1-4.6) and
marked as such in their doc comments.
-/

namespace TacPmc

/-- JSON-like payload values: the `data` field of a snapshot is an
arbitrary nested value (null / bool / number / string / list / map of
string to value), per section 9 of the design notes. -/
inductive Value where
  | null : Value
  | bool : Bool → Value
  | num : Int → Value
  | str : String → Value
  | arr : List Value → Value
  | obj : List (String × Value) → Value
deriving Repr

/-- Insert a field into a key-sorted association list, keeping keys in
nondecreasing order. -/
def insertField (p : String × Value) : List (String × Value) → List (String × Value)
  | [] => [p]
  | q :: qs => if p.1 ≤ q.1 then p :: q :: qs else q :: insertField p qs

/-- Insertion sort of an association list by key. -/
def sortFields : List (String × Value) → List (String × Value)
  | [] => []
  | p :: ps => insertField p (sortFields ps)

mutual
/-- Modelled from the spec (4.3, missing `core/snapshot_service.py`):
canonicalisation recursively sorts composite-value keys before
serialising, so the checksum is independent of insertion order. -/
def sortVal : Value → Value
  | .null => .null
  | .bool b => .bool b
  | .num n => .num n
  | .str s => .str s
  | .arr xs => .arr (sortValList xs)
  | .obj fs => .obj (sortFields (sortValFields fs))

def sortValList : List Value → List Value
  | [] => []
  | v :: vs => sortVal v :: sortValList vs

def sortValFields : List (String × Value) → List (String × Value)
  | [] => []
  | (k, v) :: ps => (k, sortVal v) :: sortValFields ps
end

mutual
/-- Modelled from the spec (4.3, missing `core/snapshot_service.py`):
deterministic textual serialisation of a payload value. -/
def serializeV : Value → String
  | .null => "null"
  | .bool true => "true"
  | .bool false => "false"
  | .num n => toString n
  | .str s => "\"" ++ s ++ "\""
  | .arr xs => "[" ++ serializeVList xs ++ "]"
  | .obj fs => "\x7b" ++ serializeVFields fs ++ "\x7d"

def serializeVList : List Value → String
  | [] => ""
  | [v] => serializeV v
  | v :: vs => serializeV v ++ "," ++ serializeVList vs

def serializeVFields : List (String × Value) → String
  | [] => ""
  | [(k, v)] => "\"" ++ k ++ "\":" ++ serializeV v
  | (k, v) :: ps => "\"" ++ k ++ "\":" ++ serializeV v ++ "," ++ serializeVFields ps
end

/-- Modelled from the spec (4.3 / 6, missing `core/snapshot_service.py`):
the cryptographic hash over the canonical serialisation, abstracted as a
deterministic rolling hash over the serialised bytes. -/
def hashRoll (s : String) : Nat :=
  s.foldl (fun h c => (h * 31 + c.toNat) % (2 ^ 64)) 5381

/-- Hex rendering of a hash value. -/
def hexString (n : Nat) : String :=
  String.mk (Nat.toDigits 16 n)

/-- Modelled from the spec (4.3, missing `core/snapshot_service.py`):
`data_checksum` is the hex-encoded hash of the canonical serialisation of
`data`. -/
def checksumOf (v : Value) : String :=
  hexString (hashRoll (serializeV (sortVal v)))

/-- One record of the `dpr_snapshots` entity-keyed snapshot collection
(spec section 3), as created by `SnapshotService.create_snapshot`. -/
structure Snapshot where
  entity_type : String
  entity_id : String
  version : Nat
  organisation_id : String
  generated_by : String
  generated_at : Nat
  data : Value
  data_checksum : String
  pdf_checksum : Option String
  is_latest : Bool
deriving Repr

/-- One record of the PILLAR A report-snapshot collection, keyed by
`snapshot_id` and read by `GET /snapshots/\x7bsnapshot_id\x7d` and the
render endpoint. -/
structure EngineSnapshot where
  snapshot_id : String
  report_type : String
  project_id : String
  organisation_id : String
  generated_by : String
  data : Value
  data_checksum : String
deriving Repr

/-- A live DPR document of the `db.dpr` collection (the fields the
embedded routes read or write). -/
structure Dpr where
  dpr_id : String
  organisation_id : String
  supervisor_id : String
  project_id : String
  status : String
  locked_flag : Bool
  locked_snapshot_version : Option Nat
  image_count : Nat
  progress_notes : String
  voice_summary : String
  weather_conditions : String
  pdf_generated : Bool
  pdf_checksum : Option String
deriving Repr

/-- An admin-notification document inserted by `submit_dpr` (the fields
the embedded route writes). -/
structure NotificationDoc where
  organisation_id : String
  recipient_role : String
  title : String
  reference_id : String
  sender_id : String
deriving Repr, DecidableEq

/-- Logger output of the routes: the observability channel. -/
inductive LogEntry where
  | info (msg : String)
  | warning (msg : String)
deriving Repr, DecidableEq

/-- The document store visible to the embedded routes: the two snapshot
collections, the live DPR collection, notifications, and the log. -/
structure Store where
  snapshots : List Snapshot
  engine_snapshots : List EngineSnapshot
  dprs : List Dpr
  notifications : List NotificationDoc
  logs : List LogEntry
deriving Repr

/-- The authenticated caller identity consumed from the excluded auth
layer: `\x7buser_id, organisation_id, role\x7d` plus display name. -/
structure User where
  user_id : String
  organisation_id : String
  role : String
  name : String
deriving Repr

/-- Errors surfaced by the routes, by HTTP status of the corresponding
`HTTPException`: `notFound` = 404, `forbidden` = 403 (the spec's
`OrganisationAccessError` when raised on a tenant mismatch),
`badRequest` = 400, `immutabilityViolation` = 405 (the spec's
`ImmutabilityViolation`), `unsupportedFormat` for the render projection. -/
inductive ApiError where
  | notFound (detail : String)
  | forbidden (detail : String)
  | badRequest (detail : String)
  | immutabilityViolation (detail : String)
  | unsupportedFormat (detail : String)
deriving Repr, DecidableEq

/-- The sublist of a snapshot list matching one entity key. -/
def fibre (l : List Snapshot) (etype eid : String) : List Snapshot :=
  l.filter (fun s => s.entity_type == etype && s.entity_id == eid)

/-- The fibre of the entity-keyed snapshot store over one entity key. -/
def snapshotsFor (st : Store) (etype eid : String) : List Snapshot :=
  fibre st.snapshots etype eid

/-- Highest version among a list of snapshots, 0 when empty. -/
def maxOf (l : List Snapshot) : Nat :=
  l.foldr (fun s m => max s.version m) 0

/-- Highest stored version for an entity key, 0 when the key has no
snapshots. -/
def maxVersion (st : Store) (etype eid : String) : Nat :=
  maxOf (snapshotsFor st etype eid)

/-- The inputs of one `SnapshotService.create_snapshot` call (the clock
reading `now` is consumed from the external clock collaborator). -/
structure CreateCall where
  entity_type : String
  entity_id : String
  organisation_id : String
  user_id : String
  now : Nat
  data : Value
deriving Repr

/-- Clearing of the previous latest pointer on a matching entity key. -/
def demoteIfKey (etype eid : String) (s : Snapshot) : Snapshot :=
  if s.entity_type == etype && s.entity_id == eid then { s with is_latest := false } else s

/-- Modelled from the spec (4.1/4.2; `core/snapshot_service.py` is not in
the provided sources): `create_snapshot` allocates the next version
(current maximum plus one) for the entity key, computes `data_checksum`
over the canonical serialisation, atomically clears the previous
`is_latest` flag for the key and inserts the new record with
`is_latest = true`; the created snapshot is returned to the caller. The
spec makes concurrent creates linearizable (section 5), so calls are
embedded as atomic state transitions. -/
def SnapshotService.create_snapshot (st : Store) (c : CreateCall) : Snapshot × Store :=
  let v := maxVersion st c.entity_type c.entity_id + 1
  let snap : Snapshot := {
    entity_type := c.entity_type, entity_id := c.entity_id, version := v,
    organisation_id := c.organisation_id, generated_by := c.user_id,
    generated_at := c.now, data := c.data, data_checksum := checksumOf c.data,
    pdf_checksum := none, is_latest := true }
  (snap, { st with snapshots := snap :: st.snapshots.map (demoteIfKey c.entity_type c.entity_id) })

/-- Modelled from the spec (4.2; `core/snapshot_service.py` is not in the
provided sources): `get_snapshot` returns the snapshot of the requested
version, or the `is_latest` record when the version is omitted; `none`
when the key has no snapshots or the version does not exist. -/
def SnapshotService.get_snapshot (st : Store) (etype eid : String) (version : Option Nat) : Option Snapshot :=
  match version with
  | some v => (snapshotsFor st etype eid).find? (fun s => s.version == v)
  | none => (snapshotsFor st etype eid).find? (fun s => s.is_latest)

/-- Modelled from the spec (4.2; `core/snapshot_service.py` is not in the
provided sources): all stored snapshots of an entity key. -/
def SnapshotService.get_all_versions (st : Store) (etype eid : String) : List Snapshot :=
  snapshotsFor st etype eid

/-- The result of an integrity verification (spec 4.3). -/
structure VerifyResult where
  valid : Bool
  expected_checksum : String
  actual_checksum : String
deriving Repr, DecidableEq

/-- Modelled from the spec (4.3; `core/snapshot_service.py` is not in the
provided sources): fetch the snapshot, recompute the checksum over its
stored `data` with the same canonical serialisation used at creation, and
compare it to the stored `data_checksum`. A pure read: no store state is
produced or changed. -/
def SnapshotService.verify_checksum (st : Store) (etype eid : String) (v : Nat) : Option VerifyResult :=
  match SnapshotService.get_snapshot st etype eid (some v) with
  | none => none
  | some s => some { valid := checksumOf s.data == s.data_checksum,
                     expected_checksum := s.data_checksum,
                     actual_checksum := checksumOf s.data }

/-- Modelled from the spec (`core/snapshot_engine.py` is not in the
provided sources): lookup of a report snapshot by its id. -/
def SnapshotEngine.get_snapshot (st : Store) (sid : String) : Option EngineSnapshot :=
  st.engine_snapshots.find? (fun s => s.snapshot_id == sid)

/-- Modelled from the spec (4.5; `core/snapshot_engine.py` is not in the
provided sources): the render projection is a pure function of the
snapshot's frozen `data` and the output format; an unsupported format
fails with `UnsupportedFormat`. -/
def renderData (data : Value) (fmt : String) : Except ApiError String :=
  if fmt == "json" then .ok (serializeV (sortVal data))
  else .error (.unsupportedFormat ("Unsupported format: " ++ fmt))

/-- Modelled from the spec (4.5; `core/snapshot_engine.py` is not in the
provided sources): `render_report_from_snapshot` fetches the snapshot by
id and renders only from its stored `data`. -/
def SnapshotEngine.render_report_from_snapshot (st : Store) (sid fmt : String) : Except ApiError String :=
  match SnapshotEngine.get_snapshot st sid with
  | none => .error (.notFound "Snapshot not found")
  | some s => renderData s.data fmt

/-- `PUT /snapshots/\x7bsnapshot_id\x7d` (`update_snapshot_blocked`,
routes file): raises HTTP 405 unconditionally, before any store access.
The source handler takes no authenticated user at all, so the caller
parameter is ignored; the store is returned untouched. -/
def update_snapshot_blocked (st : Store) (u : User) (snapshot_id : String) :
    Except ApiError String × Store :=
  (.error (.immutabilityViolation "Snapshots are immutable and cannot be updated"), st)

/-- `DELETE /snapshots/\x7bsnapshot_id\x7d` (`delete_snapshot_blocked`,
routes file): raises HTTP 405 unconditionally, before any store access. -/
def delete_snapshot_blocked (st : Store) (u : User) (snapshot_id : String) :
    Except ApiError String × Store :=
  (.error (.immutabilityViolation "Snapshots are immutable and cannot be deleted"), st)

/-- `GET /snapshots/\x7bsnapshot_id\x7d` (`get_snapshot`, routes file):
fetch by id (404 when missing), then deny with HTTP 403 when the
snapshot's `organisation_id` differs from the caller's, else return the
snapshot. -/
def get_snapshot_route (st : Store) (u : User) (sid : String) :
    Except ApiError EngineSnapshot × Store :=
  match SnapshotEngine.get_snapshot st sid with
  | none => (.error (.notFound "Snapshot not found"), st)
  | some s =>
    if s.organisation_id != u.organisation_id then (.error (.forbidden "Access denied"), st)
    else (.ok s, st)

/-- `GET /snapshots/\x7bsnapshot_id\x7d/render`
(`render_report_from_snapshot`, routes file): fetch by id (404 when
missing), deny with HTTP 403 on organisation mismatch, else render the
report from the snapshot only. -/
def render_report_route (st : Store) (u : User) (sid fmt : String) :
    Except ApiError String × Store :=
  match SnapshotEngine.get_snapshot st sid with
  | none => (.error (.notFound "Snapshot not found"), st)
  | some s =>
    if s.organisation_id != u.organisation_id then (.error (.forbidden "Access denied"), st)
    else
      match SnapshotEngine.render_report_from_snapshot st sid fmt with
      | .error e => (.error e, st)
      | .ok r => (.ok r, st)

/-- `GET /snapshots/\x7bentity_type\x7d/\x7bentity_id\x7d`
(`get_entity_snapshot`, routes file): service lookup (404 when `none`),
then deny with HTTP 403 when the snapshot's organisation differs from the
caller's, else return the snapshot. -/
def get_entity_snapshot (st : Store) (u : User) (etype eid : String) (version : Option Nat) :
    Except ApiError Snapshot × Store :=
  match SnapshotService.get_snapshot st etype eid version with
  | none => (.error (.notFound "Snapshot not found"), st)
  | some s =>
    if s.organisation_id != u.organisation_id then (.error (.forbidden "Access denied"), st)
    else (.ok s, st)

/-- The per-version metadata returned by the versions listing (no `data`
payload). -/
structure VersionMeta where
  version : Nat
  generated_at : Nat
  generated_by : String
  is_latest : Bool
  data_checksum : String
  pdf_checksum : Option String
deriving Repr, DecidableEq

/-- Projection of a snapshot to its listed metadata. -/
def versionMetaOf (s : Snapshot) : VersionMeta :=
  { version := s.version, generated_at := s.generated_at,
    generated_by := s.generated_by, is_latest := s.is_latest,
    data_checksum := s.data_checksum, pdf_checksum := s.pdf_checksum }

/-- `GET /snapshots/\x7bentity_type\x7d/\x7bentity_id\x7d/versions`
(`get_all_snapshot_versions`, routes file): fetches all versions, keeps
only those whose `organisation_id` equals the caller's, and returns their
metadata. The source raises no error on an organisation mismatch: foreign
versions are silently filtered out. -/
def get_all_snapshot_versions (st : Store) (u : User) (etype eid : String) :
    Except ApiError (List VersionMeta) × Store :=
  let snaps := (SnapshotService.get_all_versions st etype eid).filter
    (fun s => s.organisation_id == u.organisation_id)
  (.ok (snaps.map versionMetaOf), st)

/-- `POST /snapshots/\x7bentity_type\x7d/\x7bentity_id\x7d/verify`
(`verify_snapshot_integrity`, routes file): computes the verification
result, re-fetches the snapshot (404 when missing), denies with HTTP 403
on organisation mismatch, else returns the verification result. No store
state is written. -/
def verify_snapshot_integrity (st : Store) (u : User) (etype eid : String) (v : Nat) :
    Except ApiError VerifyResult × Store :=
  let result := SnapshotService.verify_checksum st etype eid v
  match SnapshotService.get_snapshot st etype eid (some v) with
  | none => (.error (.notFound "Snapshot not found"), st)
  | some s =>
    if s.organisation_id != u.organisation_id then (.error (.forbidden "Access denied"), st)
    else
      match result with
      | none => (.error (.notFound "Snapshot not found"), st)
      | some r => (.ok r, st)

/-- `DELETE /dpr/\x7bdpr_id\x7d` (`delete_dpr`, routes file): 404 when the
DPR is missing; HTTP 403 unless the caller is the DPR's supervisor or has
role "Admin"; otherwise the live DPR document is deleted. The source
checks neither `locked_flag` nor the caller's `organisation_id`, and
touches no snapshot collection. -/
def delete_dpr (st : Store) (u : User) (dpr_id : String) :
    Except ApiError String × Store :=
  match st.dprs.find? (fun d => d.dpr_id == dpr_id) with
  | none => (.error (.notFound "DPR not found"), st)
  | some dpr =>
    if dpr.supervisor_id != u.user_id && u.role != "Admin" then
      (.error (.forbidden "Not authorized"), st)
    else
      (.ok "DPR deleted", { st with dprs := st.dprs.filter (fun d => d.dpr_id != dpr_id) })

/-- Modelled from the spec (section 3 `data`; `build_dpr_snapshot` lives
in the missing `core/snapshot_service.py`): the complete embedded DPR
content frozen into the snapshot payload. -/
def build_dpr_snapshot (dpr : Dpr) : Value :=
  .obj [("dpr_id", .str dpr.dpr_id),
        ("project_id", .str dpr.project_id),
        ("progress_notes", .str dpr.progress_notes),
        ("voice_summary", .str dpr.voice_summary),
        ("weather_conditions", .str dpr.weather_conditions),
        ("image_count", .num (Int.ofNat dpr.image_count))]

/-- `db.dpr.update_one` on one DPR id: replace the matching live document
in place. -/
def updateDpr (st : Store) (id : String) (f : Dpr → Dpr) : Store :=
  { st with dprs := st.dprs.map (fun d => if d.dpr_id == id then f d else d) }

/-- The JSON body returned by a successful DPR submission (the embedded
fields; the externally produced PDF artifacts — file name, size, base64
bytes — are collaborator output and are represented by the
`pdf_generated` flag). -/
structure SubmitResult where
  dpr_id : String
  status : String
  pdf_generated : Bool
  snapshot_version : Nat
  locked : Bool
  message : String
deriving Repr, DecidableEq

/-- `POST /dpr/\x7bdpr_id\x7d/submit` (`submit_dpr`, routes file).
Guards, in source order: 404 when the DPR is missing, 403 on organisation
mismatch, 400 when already locked, 400 when fewer than 4 images. Then:
PDF generation inside try/except (the oracle `pdfOk` tells whether the
external generator succeeded; on failure the submit continues with no PDF
checksum), the PDF fields are written to the live DPR, the immutable
snapshot is created from the embedded DPR content, the DPR is marked
submitted and locked with the snapshot version, and the admin
notification is inserted inside try/except (oracle `notifyOk`): on
failure a warning is logged and the submission still returns success. -/
def submit_dpr (st : Store) (u : User) (dpr_id : String) (now : Nat)
    (pdfOk : Bool) (notifyOk : Bool) : Except ApiError SubmitResult × Store :=
  match st.dprs.find? (fun d => d.dpr_id == dpr_id) with
  | none => (.error (.notFound "DPR not found"), st)
  | some dpr =>
    if dpr.organisation_id != u.organisation_id then
      (.error (.forbidden "Access denied"), st)
    else if dpr.locked_flag then
      (.error (.badRequest "DPR is already submitted"), st)
    else if dpr.image_count < 4 then
      (.error (.badRequest "DPR requires minimum 4 images"), st)
    else
      let pdf_chk : Option String := if pdfOk then some ("pdf-" ++ dpr.dpr_id) else none
      let st1 := updateDpr st dpr_id
        (fun d => { d with pdf_generated := pdfOk, pdf_checksum := pdf_chk })
      let sres := SnapshotService.create_snapshot st1
        { entity_type := "DPR", entity_id := dpr_id,
          organisation_id := u.organisation_id, user_id := u.user_id,
          now := now, data := build_dpr_snapshot dpr }
      let snap := sres.1
      let st2 := sres.2
      let st3 := updateDpr st2 dpr_id
        (fun d => { d with status := "submitted", locked_flag := true,
                           locked_snapshot_version := some snap.version })
      let st4 :=
        if notifyOk then
          { st3 with
            notifications :=
              { organisation_id := u.organisation_id, recipient_role := "admin",
                title := "New DPR Submitted", reference_id := dpr_id,
                sender_id := u.user_id } :: st3.notifications,
            logs := .info ("[DPR] Notification sent to admin for DPR " ++ dpr_id) :: st3.logs }
        else
          { st3 with logs := .warning "[DPR] Failed to create notification" :: st3.logs }
      (.ok { dpr_id := dpr_id, status := "submitted", pdf_generated := pdfOk,
             snapshot_version := snap.version, locked := true,
             message := "DPR submitted successfully with immutable snapshot" }, st4)

/-! Sample records used by the concrete witnesses. -/

/-- A small nested payload. -/
def sampleData : Value := .obj [("amount", .num 100), ("notes", .str "poured slab")]

/-- A second payload, superseding `sampleData`. -/
def sampleData2 : Value := .obj [("amount", .num 150)]

/-- A version-1 entity snapshot owned by organisation org-A. -/
def orgASnap : Snapshot :=
  { entity_type := "DPR", entity_id := "d1", version := 1,
    organisation_id := "org-A", generated_by := "u1", generated_at := 10,
    data := sampleData, data_checksum := checksumOf sampleData,
    pdf_checksum := none, is_latest := true }

/-- A report snapshot owned by organisation org-A. -/
def orgAEngineSnap : EngineSnapshot :=
  { snapshot_id := "s1", report_type := "FINANCIAL_SUMMARY", project_id := "p1",
    organisation_id := "org-A", generated_by := "u1",
    data := sampleData, data_checksum := checksumOf sampleData }

/-- A caller of organisation org-B. -/
def orgBUser : User :=
  { user_id := "u2", organisation_id := "org-B", role := "Supervisor", name := "Bee" }

/-- An admin caller of organisation org-A. -/
def orgAUser : User :=
  { user_id := "u1", organisation_id := "org-A", role := "Admin", name := "Aye" }

/-- A store holding one org-A entity snapshot and one org-A report
snapshot. -/
def sampleStore : Store :=
  { snapshots := [orgASnap], engine_snapshots := [orgAEngineSnap],
    dprs := [], notifications := [], logs := [] }

/-- A locked DPR of organisation org-A, owned by supervisor u1. -/
def lockedDpr : Dpr :=
  { dpr_id := "d1", organisation_id := "org-A", supervisor_id := "u1",
    project_id := "p1", status := "submitted", locked_flag := true,
    locked_snapshot_version := some 1, image_count := 5,
    progress_notes := "poured slab", voice_summary := "", weather_conditions := "Normal",
    pdf_generated := true, pdf_checksum := some "pdf-d1" }

/-- An Admin caller of organisation org-B. -/
def adminOrgB : User :=
  { user_id := "u9", organisation_id := "org-B", role := "Admin", name := "Root" }

/-- Store for the C10 witness: one locked org-A DPR plus the org-A
snapshots. -/
def deleteStore : Store :=
  { snapshots := [orgASnap], engine_snapshots := [orgAEngineSnap],
    dprs := [lockedDpr], notifications := [], logs := [] }

/-- An unlocked, submit-ready DPR of organisation org-A. -/
def draftDpr : Dpr :=
  { dpr_id := "d2", organisation_id := "org-A", supervisor_id := "u1",
    project_id := "p1", status := "draft", locked_flag := false,
    locked_snapshot_version := none, image_count := 4,
    progress_notes := "set rebar", voice_summary := "ok", weather_conditions := "Normal",
    pdf_generated := false, pdf_checksum := none }

/-- Store for the C9 witness: one draft org-A DPR, nothing else. -/
def submitStore : Store :=
  { snapshots := [], engine_snapshots := [], dprs := [draftDpr],
    notifications := [], logs := [] }

/-- The empty store. -/
def emptyStore : Store :=
  { snapshots := [], engine_snapshots := [], dprs := [],
    notifications := [], logs := [] }

/-- Clearing of the latest pointer on one record. -/
def demote (s : Snapshot) : Snapshot := { s with is_latest := false }

/-- The snapshot record produced by one create call at a given version
and latest flag. -/
def mkSnap (c : CreateCall) (v : Nat) (latest : Bool) : Snapshot :=
  { entity_type := c.entity_type, entity_id := c.entity_id, version := v,
    organisation_id := c.organisation_id, generated_by := c.user_id,
    generated_at := c.now, data := c.data, data_checksum := checksumOf c.data,
    pdf_checksum := none, is_latest := latest }

/-- Whether a create call targets the given entity key. -/
def matchesKey (c : CreateCall) (etype eid : String) : Bool :=
  c.entity_type == etype && c.entity_id == eid

/-- The action of one create call on the fibre of its own entity key:
push the new latest record, demote all prior ones. -/
def histStep (h : List Snapshot) (c : CreateCall) : List Snapshot :=
  mkSnap c (maxOf h + 1) true :: h.map demote

/-- A whole sequence of `create_snapshot` calls applied in their
linearisation order (spec section 5 makes concurrent creates
linearizable). -/
def applyCreates (st : Store) (cs : List CreateCall) : Store :=
  cs.foldl (fun s c => (SnapshotService.create_snapshot s c).2) st

/-- The fibre of an entity key after a run of creates, listed in
ascending version order starting at `v`, where `t` is the version that
carries the latest flag. -/
def ascHist : List CreateCall → Nat → Nat → List Snapshot
  | [], _, _ => []
  | c :: cs, v, t => mkSnap c v (v == t) :: ascHist cs (v + 1) t

/-- First create call of the C2/C6 witness run. -/
def callOne : CreateCall :=
  { entity_type := "DPR", entity_id := "d1", organisation_id := "org-A",
    user_id := "u1", now := 10, data := sampleData }

/-- Second create call of the C2/C6 witness run, same entity key. -/
def callTwo : CreateCall :=
  { entity_type := "DPR", entity_id := "d1", organisation_id := "org-A",
    user_id := "u1", now := 20, data := sampleData2 }

/-- A create call for an unrelated entity key, interleaved in the C2/C6
witness run. -/
def callOther : CreateCall :=
  { entity_type := "WORK_ORDER", entity_id := "w7", organisation_id := "org-A",
    user_id := "u1", now := 15, data := .null }

/-- C1: every update or delete attempt against a snapshot resource fails
with the `ImmutabilityViolation` error (HTTP 405) for every caller
regardless of role, the store is unchanged, and a subsequent `GetSnapshot`
on the untouched store returns the identical record. -/
theorem snapshot_update_delete_immutable (st : Store) (u u2 : User) (sid sid2 : String) :
    update_snapshot_blocked st u sid =
      (.error (.immutabilityViolation "Snapshots are immutable and cannot be updated"), st) ∧
    delete_snapshot_blocked st u sid =
      (.error (.immutabilityViolation "Snapshots are immutable and cannot be deleted"), st) ∧
    get_snapshot_route (update_snapshot_blocked st u sid).2 u2 sid2 =
      get_snapshot_route st u2 sid2 ∧
    get_snapshot_route (delete_snapshot_blocked st u sid).2 u2 sid2 =
      get_snapshot_route st u2 sid2 :=
  ⟨rfl, rfl, rfl, rfl⟩

/-- C3: when the stored snapshot's `organisation_id` differs from the
caller's, `GetSnapshot` (the entity read path) and the render read path
both fail with the organisation-access error (HTTP 403 "Access denied"),
a constant carrying no field of the snapshot, and leave the store
untouched. -/
theorem cross_tenant_read_denied (st : Store) (u : User) (etype eid : String)
    (version : Option Nat) (s : Snapshot)
    (hs : SnapshotService.get_snapshot st etype eid version = some s)
    (horg : s.organisation_id ≠ u.organisation_id) :
    get_entity_snapshot st u etype eid version = (.error (.forbidden "Access denied"), st) ∧
    ∀ (es : EngineSnapshot) (sid fmt : String),
      SnapshotEngine.get_snapshot st sid = some es →
      es.organisation_id ≠ u.organisation_id →
      render_report_route st u sid fmt = (.error (.forbidden "Access denied"), st) := by
  constructor
  · unfold get_entity_snapshot
    rw [hs]
    simp [bne_iff_ne, horg]
  · intro es sid fmt hes horg2
    unfold render_report_route
    rw [hes]
    simp [bne_iff_ne, horg2]

/-- Witness for C3 at a concrete cross-tenant input. -/
theorem cross_tenant_read_denied_witness :
    SnapshotService.get_snapshot sampleStore "DPR" "d1" none = some orgASnap ∧
    orgASnap.organisation_id ≠ orgBUser.organisation_id ∧
    get_entity_snapshot sampleStore orgBUser "DPR" "d1" none =
      (.error (.forbidden "Access denied"), sampleStore) ∧
    render_report_route sampleStore orgBUser "s1" "json" =
      (.error (.forbidden "Access denied"), sampleStore) := by
  refine ⟨rfl, by decide, ?_, ?_⟩
  · exact (cross_tenant_read_denied sampleStore orgBUser "DPR" "d1" none orgASnap rfl
      (by decide)).1
  · exact (cross_tenant_read_denied sampleStore orgBUser "DPR" "d1" none orgASnap rfl
      (by decide)).2 orgAEngineSnap "s1" "json" rfl (by decide)

/-- C4 counterexample: with an org-A snapshot stored and an org-B caller,
the versions listing returns an ok (empty) result instead of failing with
the organisation-access error. -/
theorem list_versions_cross_tenant_counterexample :
    get_all_snapshot_versions sampleStore orgBUser "DPR" "d1" =
      (.ok [], sampleStore) ∧
    (get_all_snapshot_versions sampleStore orgBUser "DPR" "d1").1 ≠
      .error (.forbidden "Access denied") := by
  refine ⟨rfl, ?_⟩
  intro h
  exact Except.noConfusion h

/-- C4 amended: `ListVersions` never fails on a tenant mismatch; it
returns an ok list holding exactly the metadata of the caller's own
snapshots of the entity key — every foreign-organisation version is
filtered out (an empty list when all versions belong to another
organisation). -/
theorem list_versions_filters_foreign (st : Store) (u : User) (etype eid : String) :
    ∃ l, get_all_snapshot_versions st u etype eid = (Except.ok l, st) ∧
      (∀ m ∈ l, ∃ s ∈ SnapshotService.get_all_versions st etype eid,
        s.organisation_id = u.organisation_id ∧ m = versionMetaOf s) ∧
      (∀ s ∈ SnapshotService.get_all_versions st etype eid,
        s.organisation_id = u.organisation_id → versionMetaOf s ∈ l) := by
  refine ⟨_, rfl, ?_, ?_⟩
  · intro m hm
    rcases List.mem_map.mp hm with ⟨s, hs, hms⟩
    rcases List.mem_filter.mp hs with ⟨hs1, hs2⟩
    exact ⟨s, hs1, by simpa using hs2, hms.symm⟩
  · intro s hs horg
    exact List.mem_map_of_mem _ (List.mem_filter.mpr ⟨hs, by simpa using horg⟩)

/-- Witness for the amended C4 at a concrete cross-tenant input. -/
theorem list_versions_filters_foreign_witness :
    ∃ l, get_all_snapshot_versions sampleStore orgBUser "DPR" "d1" =
        (Except.ok l, sampleStore) ∧
      (∀ m ∈ l, ∃ s ∈ SnapshotService.get_all_versions sampleStore "DPR" "d1",
        s.organisation_id = orgBUser.organisation_id ∧ m = versionMetaOf s) ∧
      (∀ s ∈ SnapshotService.get_all_versions sampleStore "DPR" "d1",
        s.organisation_id = orgBUser.organisation_id → versionMetaOf s ∈ l) :=
  list_versions_filters_foreign sampleStore orgBUser "DPR" "d1"

/-- C5: a successful snapshot creation hands the caller the allocated
version number (the key's previous maximum plus one) and the data
checksum computed over the canonical serialisation, and the returned
record is the one persisted in the store. -/
theorem create_snapshot_returns_version_and_checksum (st : Store) (c : CreateCall) :
    (SnapshotService.create_snapshot st c).1.version =
      maxVersion st c.entity_type c.entity_id + 1 ∧
    (SnapshotService.create_snapshot st c).1.data_checksum = checksumOf c.data ∧
    (SnapshotService.create_snapshot st c).1 ∈
      (SnapshotService.create_snapshot st c).2.snapshots :=
  ⟨rfl, rfl, List.mem_cons_self _ _⟩

/-- C10: `delete_dpr` deletes the live DPR for any caller who is the
DPR's supervisor or an Admin — with no hypothesis on the DPR's
`locked_flag` or on the caller's organisation — and leaves both snapshot
collections untouched. -/
theorem delete_dpr_supervisor_or_admin (st : Store) (u : User) (id : String) (dpr : Dpr)
    (hfind : st.dprs.find? (fun d => d.dpr_id == id) = some dpr)
    (hauth : dpr.supervisor_id = u.user_id ∨ u.role = "Admin") :
    delete_dpr st u id =
      (.ok "DPR deleted", { st with dprs := st.dprs.filter (fun d => d.dpr_id != id) }) ∧
    (delete_dpr st u id).2.snapshots = st.snapshots ∧
    (delete_dpr st u id).2.engine_snapshots = st.engine_snapshots ∧
    ∀ d ∈ (delete_dpr st u id).2.dprs, d.dpr_id ≠ id := by
  have hres : delete_dpr st u id =
      (.ok "DPR deleted", { st with dprs := st.dprs.filter (fun d => d.dpr_id != id) }) := by
    unfold delete_dpr
    rw [hfind]
    rcases hauth with h | h <;> simp [h, bne_iff_ne]
  refine ⟨hres, by rw [hres], by rw [hres], ?_⟩
  intro d hd
  rw [hres] at hd
  have := (List.mem_filter.mp hd).2
  simpa [bne_iff_ne] using this

/-- Witness for C10: an org-B Admin deletes a locked org-A DPR; the
deletion succeeds and the snapshots survive. -/
theorem delete_dpr_supervisor_or_admin_witness :
    deleteStore.dprs.find? (fun d => d.dpr_id == "d1") = some lockedDpr ∧
    (lockedDpr.supervisor_id = adminOrgB.user_id ∨ adminOrgB.role = "Admin") ∧
    lockedDpr.locked_flag = true ∧
    lockedDpr.organisation_id ≠ adminOrgB.organisation_id ∧
    delete_dpr deleteStore adminOrgB "d1" =
      (.ok "DPR deleted",
       { deleteStore with dprs := deleteStore.dprs.filter (fun d => d.dpr_id != "d1") }) ∧
    (delete_dpr deleteStore adminOrgB "d1").2.snapshots = deleteStore.snapshots := by
  refine ⟨rfl, Or.inr rfl, rfl, by decide, ?_, ?_⟩
  · exact (delete_dpr_supervisor_or_admin deleteStore adminOrgB "d1" lockedDpr rfl
      (Or.inr rfl)).1
  · exact (delete_dpr_supervisor_or_admin deleteStore adminOrgB "d1" lockedDpr rfl
      (Or.inr rfl)).2.1

/-- C8: the rendered report is a function of the snapshot's frozen data
(plus the format and the caller's tenant check) alone: any two stores
whose snapshot under the id carries the same `data` and owner produce the
same response, and replacing the entire live DPR collection between two
calls leaves the output untouched. Determinism of two calls is the
instance `st2 = st`, `u2 = u`. -/
theorem render_deterministic_and_isolated (st st2 : Store) (u u2 : User) (sid fmt : String)
    (s s2 : EngineSnapshot)
    (h1 : SnapshotEngine.get_snapshot st sid = some s)
    (h2 : SnapshotEngine.get_snapshot st2 sid = some s2)
    (hdata : s.data = s2.data)
    (horg : s.organisation_id = s2.organisation_id)
    (huser : u.organisation_id = u2.organisation_id) :
    (render_report_route st u sid fmt).1 = (render_report_route st2 u2 sid fmt).1 ∧
    ∀ d : List Dpr,
      (render_report_route { st with dprs := d } u sid fmt).1 =
        (render_report_route st u sid fmt).1 := by
  constructor
  · unfold render_report_route SnapshotEngine.render_report_from_snapshot
    rw [h1, h2]
    dsimp only
    rw [hdata, horg, huser]
    by_cases hb : (s2.organisation_id != u2.organisation_id) = true
    · simp [hb]
    · simp only [Bool.not_eq_true] at hb
      rcases hr : renderData s2.data fmt with e | r <;> simp [hb, hr]
  · intro d
    have hg : SnapshotEngine.get_snapshot { st with dprs := d } sid =
        SnapshotEngine.get_snapshot st sid := rfl
    have hrr : SnapshotEngine.render_report_from_snapshot { st with dprs := d } sid fmt =
        SnapshotEngine.render_report_from_snapshot st sid fmt := rfl
    unfold render_report_route
    rw [hg, hrr, h1]
    by_cases hb : (s.organisation_id != u.organisation_id) = true
    · simp [hb]
    · simp only [Bool.not_eq_true] at hb
      rcases hr : SnapshotEngine.render_report_from_snapshot st sid fmt with e | r <;>
        simp [hb, hr]

/-- Witness for C8: the same report snapshot rendered from the original
store and from a store whose live DPR collection was mutated (and whose
entity snapshots were dropped) gives the identical response. -/
theorem render_deterministic_and_isolated_witness :
    SnapshotEngine.get_snapshot sampleStore "s1" = some orgAEngineSnap ∧
    (render_report_route sampleStore orgAUser "s1" "json").1 =
      (render_report_route { sampleStore with dprs := [lockedDpr] } orgAUser "s1" "json").1 := by
  refine ⟨rfl, ?_⟩
  exact ((render_deterministic_and_isolated sampleStore sampleStore orgAUser orgAUser
    "s1" "json" orgAEngineSnap orgAEngineSnap rfl rfl rfl rfl rfl).2 [lockedDpr]).symm

/-! Helper lemmas about the per-key history of `create_snapshot` runs. -/

theorem maxOf_cons (s : Snapshot) (l : List Snapshot) :
    maxOf (s :: l) = max s.version (maxOf l) := rfl

theorem maxOf_append (l₁ l₂ : List Snapshot) :
    maxOf (l₁ ++ l₂) = max (maxOf l₁) (maxOf l₂) := by
  induction l₁ with
  | nil => simp [maxOf]
  | cons s l ih => simp [maxOf_cons, ih, Nat.max_assoc]

theorem maxOf_reverse (l : List Snapshot) : maxOf l.reverse = maxOf l := by
  induction l with
  | nil => rfl
  | cons s l ih =>
    rw [List.reverse_cons, maxOf_append, ih, maxOf_cons]
    simp [maxOf, Nat.max_comm]

theorem ascHist_cons (c : CreateCall) (cs : List CreateCall) (v t : Nat) :
    ascHist (c :: cs) v t = mkSnap c v (v == t) :: ascHist cs (v + 1) t := rfl

theorem maxOf_ascHist (cs : List CreateCall) (v t : Nat) :
    maxOf (ascHist cs v t) = if cs.length = 0 then 0 else v + (cs.length - 1) := by
  induction cs generalizing v with
  | nil => rfl
  | cons c cs ih =>
    rw [ascHist_cons, maxOf_cons, ih (v + 1)]
    have hv : (mkSnap c v (v == t)).version = v := rfl
    rw [hv]
    simp only [List.length_cons]
    rw [if_neg (Nat.succ_ne_zero _)]
    rcases Nat.eq_zero_or_pos cs.length with h1 | h1
    · rw [if_pos h1, h1]
      simp
    · rw [if_neg (by omega)]
      have he : v + 1 + (cs.length - 1) = v + cs.length := by omega
      rw [he, Nat.max_eq_right (by omega)]
      omega

theorem ascHist_append (cs : List CreateCall) (c : CreateCall) (v t : Nat) :
    ascHist (cs ++ [c]) v t =
      ascHist cs v t ++ [mkSnap c (v + cs.length) ((v + cs.length) == t)] := by
  induction cs generalizing v with
  | nil => simp [ascHist_cons, ascHist]
  | cons c' cs ih =>
    have hl : v + 1 + cs.length = v + (cs.length + 1) := by omega
    simp only [List.cons_append, ascHist_cons, ih (v + 1), hl, List.length_cons]

theorem ascHist_map_demote (cs : List CreateCall) (v t : Nat) (hv : 1 ≤ v) :
    (ascHist cs v t).map demote = ascHist cs v 0 := by
  induction cs generalizing v with
  | nil => rfl
  | cons c cs ih =>
    rw [ascHist_cons, ascHist_cons, List.map_cons, ih (v + 1) (by omega)]
    have h0 : (v == 0) = false := beq_eq_false_iff_ne.mpr (by omega)
    rw [h0]
    rfl

theorem ascHist_t_out (cs : List CreateCall) (v t : Nat) (hv : 1 ≤ v)
    (ht : t < v ∨ v + cs.length ≤ t) :
    ascHist cs v t = ascHist cs v 0 := by
  induction cs generalizing v with
  | nil => rfl
  | cons c cs ih =>
    rw [ascHist_cons, ascHist_cons]
    have hne : (v == t) = false := beq_eq_false_iff_ne.mpr (by
      rcases ht with h | h
      · omega
      · have : v + (cs.length + 1) ≤ t := by simpa [List.length_cons] using h
        omega)
    have h0 : (v == 0) = false := beq_eq_false_iff_ne.mpr (by omega)
    rw [hne, h0, ih (v + 1) (by omega) (by
      rcases ht with h | h
      · omega
      · right
        have : v + (cs.length + 1) ≤ t := by simpa [List.length_cons] using h
        omega)]

theorem fibre_map_demoteIfKey (l : List Snapshot) (et ei : String) :
    fibre (l.map (demoteIfKey et ei)) et ei = (fibre l et ei).map demote := by
  induction l with
  | nil => rfl
  | cons s l ih =>
    by_cases hc : (s.entity_type == et && s.entity_id == ei) = true
    · have hd : demoteIfKey et ei s = demote s := by
        simp [demoteIfKey, demote, hc]
      simp only [fibre, List.map_cons, List.filter_cons] at *
      rw [hd]
      have hcd : ({ s with is_latest := false } : Snapshot).entity_type = s.entity_type := rfl
      simp [demote, hc, ih]
    · have hd : demoteIfKey et ei s = s := by
        simp [demoteIfKey, hc]
      simp only [fibre, List.map_cons, List.filter_cons] at *
      rw [hd]
      simp [hc, ih]

theorem fibre_map_demoteIfKey_ne (l : List Snapshot) (et' ei' et ei : String)
    (h : ¬(et' = et ∧ ei' = ei)) :
    fibre (l.map (demoteIfKey et' ei')) et ei = fibre l et ei := by
  induction l with
  | nil => rfl
  | cons s l ih =>
    by_cases hc' : (s.entity_type == et' && s.entity_id == ei') = true
    · have hd : demoteIfKey et' ei' s = demote s := by
        simp [demoteIfKey, demote, hc']
      by_cases hc : (s.entity_type == et && s.entity_id == ei) = true
      · exfalso
        rcases Bool.and_eq_true_iff.mp hc' with ⟨h1', h2'⟩
        rcases Bool.and_eq_true_iff.mp hc with ⟨h1, h2⟩
        exact h ⟨(beq_iff_eq.mp h1').symm.trans (beq_iff_eq.mp h1),
                 (beq_iff_eq.mp h2').symm.trans (beq_iff_eq.mp h2)⟩
      · simp only [fibre, List.map_cons, List.filter_cons] at *
        rw [hd]
        simp [demote, hc, ih]
    · have hd : demoteIfKey et' ei' s = s := by
        simp [demoteIfKey, hc']
      simp only [fibre, List.map_cons, List.filter_cons] at *
      rw [hd]
      by_cases hc : (s.entity_type == et && s.entity_id == ei) = true <;> simp [hc, ih]

theorem fibre_cons (s : Snapshot) (l : List Snapshot) (et ei : String) :
    fibre (s :: l) et ei =
      if (s.entity_type == et && s.entity_id == ei) = true then s :: fibre l et ei
      else fibre l et ei := by
  simp [fibre, List.filter_cons]

theorem snapshotsFor_create (st : Store) (c : CreateCall) (et ei : String) :
    snapshotsFor (SnapshotService.create_snapshot st c).2 et ei =
      if matchesKey c et ei then histStep (snapshotsFor st et ei) c
      else snapshotsFor st et ei := by
  have hfib : snapshotsFor (SnapshotService.create_snapshot st c).2 et ei =
      fibre ((SnapshotService.create_snapshot st c).1 ::
        st.snapshots.map (demoteIfKey c.entity_type c.entity_id)) et ei := rfl
  rw [hfib, fibre_cons]
  have hkey : ((SnapshotService.create_snapshot st c).1.entity_type == et &&
      (SnapshotService.create_snapshot st c).1.entity_id == ei) = matchesKey c et ei := rfl
  rw [hkey]
  by_cases hm : matchesKey c et ei = true
  · rcases Bool.and_eq_true_iff.mp hm with ⟨h1, h2⟩
    have het : c.entity_type = et := beq_iff_eq.mp h1
    have hei : c.entity_id = ei := beq_iff_eq.mp h2
    subst het hei
    rw [if_pos hm, if_pos hm, fibre_map_demoteIfKey]
    rfl
  · have hk : ¬(c.entity_type = et ∧ c.entity_id = ei) := fun hand =>
      hm (by simp [matchesKey, hand.1, hand.2])
    rw [if_neg hm, if_neg hm]
    exact fibre_map_demoteIfKey_ne st.snapshots c.entity_type c.entity_id et ei hk

theorem snapshotsFor_applyCreates (cs : List CreateCall) (st : Store) (et ei : String) :
    snapshotsFor (applyCreates st cs) et ei =
      (cs.filter (fun c => matchesKey c et ei)).foldl histStep (snapshotsFor st et ei) := by
  induction cs generalizing st with
  | nil => rfl
  | cons c cs ih =>
    have hstep : applyCreates st (c :: cs) =
        applyCreates (SnapshotService.create_snapshot st c).2 cs := rfl
    rw [hstep, ih, List.filter_cons]
    by_cases hm : matchesKey c et ei = true
    · rw [if_pos (by simp [hm]), List.foldl_cons, snapshotsFor_create, if_pos hm]
    · rw [if_neg (by simp [hm]), snapshotsFor_create, if_neg hm]

theorem foldl_histStep_char (cs : List CreateCall) :
    List.foldl histStep [] cs = (ascHist cs 1 cs.length).reverse := by
  induction cs using List.reverseRecOn with
  | nil => rfl
  | append_singleton cs c ih =>
    rw [List.foldl_append, List.foldl_cons, List.foldl_nil, ih]
    show mkSnap c (maxOf (ascHist cs 1 cs.length).reverse + 1) true ::
        ((ascHist cs 1 cs.length).reverse).map demote = _
    rw [maxOf_reverse, maxOf_ascHist, List.map_reverse,
      ascHist_map_demote cs 1 cs.length (by omega)]
    rw [ascHist_append, List.length_append]
    have hN : maxOf ([] : List Snapshot) = 0 := rfl
    have hM : (if cs.length = 0 then 0 else 1 + (cs.length - 1)) + 1 = cs.length + 1 := by
      split_ifs with h <;> omega
    rw [hM]
    have ht : ascHist cs 1 (cs.length + [c].length) = ascHist cs 1 0 := by
      apply ascHist_t_out cs 1 _ (by omega)
      right
      simp only [List.length_singleton]
      omega
    rw [List.reverse_append]
    have hone : (1 + cs.length == cs.length + [c].length) = true := by
      simp [Nat.add_comm]
    rw [ht, hone]
    simp [Nat.add_comm]

theorem snapshotsFor_run (st : Store) (cs : List CreateCall) (et ei : String)
    (h0 : snapshotsFor st et ei = []) :
    snapshotsFor (applyCreates st cs) et ei =
      (ascHist (cs.filter (fun c => matchesKey c et ei)) 1
        (cs.filter (fun c => matchesKey c et ei)).length).reverse := by
  rw [snapshotsFor_applyCreates, h0, foldl_histStep_char]

theorem ascHist_versions (cs : List CreateCall) (v t : Nat) :
    (ascHist cs v t).map (fun s => s.version) = List.range' v cs.length := by
  induction cs generalizing v with
  | nil => rfl
  | cons c cs ih =>
    rw [ascHist_cons, List.map_cons, ih (v + 1), List.length_cons, List.range'_succ]
    rfl

theorem ascHist_latest_versions (cs : List CreateCall) (v t : Nat) :
    ((ascHist cs v t).filter (fun s => s.is_latest)).map (fun s => s.version) =
      if v ≤ t ∧ t < v + cs.length then [t] else [] := by
  induction cs generalizing v with
  | nil =>
    rw [if_neg (by simp only [List.length_nil, Nat.add_zero]; omega)]
    rfl
  | cons c cs ih =>
    rw [ascHist_cons, List.filter_cons]
    have hflag : ((mkSnap c v (v == t)).is_latest) = (v == t) := rfl
    by_cases hvt : v = t
    · subst hvt
      simp only [hflag, beq_self_eq_true]
      rw [if_pos (show (mkSnap c v true).is_latest = true from rfl), List.map_cons,
        ih (v + 1), if_neg (by omega),
        if_pos ⟨Nat.le_refl v, by simp only [List.length_cons]; omega⟩]
      rfl
    · have hf : (v == t) = false := beq_eq_false_iff_ne.mpr hvt
      simp only [hflag, hf]
      rw [if_neg (show ¬((mkSnap c v false).is_latest = true) by simp [mkSnap])]
      rw [ih (v + 1)]
      have hiff : (v + 1 ≤ t ∧ t < v + 1 + cs.length) ↔
          (v ≤ t ∧ t < v + (c :: cs).length) := by
        simp only [List.length_cons]
        omega
      rw [if_congr hiff rfl rfl]

theorem find?_version_reverse (cs : List CreateCall) (t v : Nat) (hv : 1 ≤ v) :
    ((ascHist cs 1 t).reverse).find? (fun s => s.version == v) =
      (cs[v - 1]?).map (fun c => mkSnap c v (v == t)) := by
  induction cs using List.reverseRecOn with
  | nil => rfl
  | append_singleton cs c ih =>
    rw [ascHist_append, List.reverse_append]
    have hrr : ([mkSnap c (1 + cs.length) ((1 + cs.length) == t)].reverse ++
        (ascHist cs 1 t).reverse).find? (fun s => s.version == v) =
        (mkSnap c (1 + cs.length) ((1 + cs.length) == t) ::
          (ascHist cs 1 t).reverse).find? (fun s => s.version == v) := rfl
    rw [hrr]
    by_cases hv1 : 1 + cs.length = v
    · rw [List.find?_cons_of_pos _ (by
        show ((mkSnap c (1 + cs.length) _).version == v) = true
        simp [mkSnap, hv1])]
      have hidx : (cs ++ [c])[v - 1]? = some c := by
        rw [List.getElem?_append_right (by omega)]
        have : v - 1 - cs.length = 0 := by omega
        rw [this]
        rfl
      rw [hidx]
      rw [show Option.map (fun c => mkSnap c v (v == t)) (some c) =
        some (mkSnap c v (v == t)) from rfl]
      rw [show v = 1 + cs.length from hv1.symm]
    · rw [List.find?_cons_of_neg _ (by
        show ¬((mkSnap c (1 + cs.length) _).version == v) = true
        simp only [mkSnap, Nat.beq_eq_true_eq]
        omega)]
      rw [ih]
      by_cases hlt : v - 1 < cs.length
      · rw [List.getElem?_append, if_pos hlt]
      · have h1 : cs[v - 1]? = none := by
          rw [List.getElem?_eq_none]
          omega
        have h2 : (cs ++ [c])[v - 1]? = none := by
          rw [List.getElem?_eq_none]
          simp only [List.length_append, List.length_singleton]
          omega
        rw [h1, h2]

theorem find?_latest_reverse (cs : List CreateCall) :
    ((ascHist cs 1 cs.length).reverse).find? (fun s => s.is_latest) =
      (cs[cs.length - 1]?).map (fun c => mkSnap c cs.length true) := by
  induction cs using List.reverseRecOn with
  | nil => rfl
  | append_singleton cs c =>
    rw [ascHist_append, List.reverse_append]
    have hflag : ((1 + cs.length) == (cs ++ [c]).length) = true := by
      simp [Nat.add_comm]
    rw [hflag]
    have hrr : ([mkSnap c (1 + cs.length) true].reverse ++
        (ascHist cs 1 (cs ++ [c]).length).reverse).find? (fun s => s.is_latest) =
        (mkSnap c (1 + cs.length) true ::
          (ascHist cs 1 (cs ++ [c]).length).reverse).find? (fun s => s.is_latest) := rfl
    rw [hrr, List.find?_cons_of_pos _ (by rfl)]
    have hidx : (cs ++ [c])[(cs ++ [c]).length - 1]? = some c := by
      rw [List.getElem?_append_right (by simp)]
      simp
    rw [hidx]
    have hmap : Option.map (fun x => mkSnap x (cs ++ [c]).length true) (some c) =
        some (mkSnap c (cs ++ [c]).length true) := rfl
    rw [hmap]
    have hlen : 1 + cs.length = (cs ++ [c]).length := by simp [Nat.add_comm]
    rw [hlen]

/-- C2: starting from a key with no snapshots, after any linearised run
of `create_snapshot` calls (possibly interleaved with creates for other
keys), the stored versions of the key are exactly the contiguous set
`\x7b1, …, N\x7d` — where `N` is the number of calls targeting the key —
with no gaps or duplicates, and the snapshots carrying `is_latest = true`
are exactly one record, whose version is the maximum `N` (none when
`N = 0`). -/
theorem create_versions_gapless_single_latest
    (st : Store) (cs : List CreateCall) (et ei : String)
    (h0 : snapshotsFor st et ei = []) :
    ((snapshotsFor (applyCreates st cs) et ei).map (fun s => s.version)).Perm
      (List.range' 1 (cs.filter (fun c => matchesKey c et ei)).length) ∧
    ((snapshotsFor (applyCreates st cs) et ei).filter (fun s => s.is_latest)).map
        (fun s => s.version) =
      (if (cs.filter (fun c => matchesKey c et ei)).length = 0 then []
       else [(cs.filter (fun c => matchesKey c et ei)).length]) := by
  have hrun := snapshotsFor_run st cs et ei h0
  constructor
  · rw [hrun, List.map_reverse, ascHist_versions]
    exact List.reverse_perm _
  · rw [hrun, List.filter_reverse, List.map_reverse, ascHist_latest_versions]
    rcases Nat.eq_zero_or_pos (cs.filter (fun c => matchesKey c et ei)).length with h | h
    · rw [if_neg (by omega), if_pos h]
      rfl
    · rw [if_pos (by omega), if_neg (by omega)]
      rfl

/-- Witness for C2: two creates for key (DPR, d1) interleaved with one
create for another key, run from the empty store: the key's versions are
a permutation of `[1, 2]` and the unique latest record has version 2. -/
theorem create_versions_gapless_single_latest_witness :
    ((snapshotsFor (applyCreates emptyStore [callOne, callOther, callTwo]) "DPR" "d1").map
        (fun s => s.version)).Perm (List.range' 1 2) ∧
    ((snapshotsFor (applyCreates emptyStore [callOne, callOther, callTwo]) "DPR" "d1").filter
        (fun s => s.is_latest)).map (fun s => s.version) = [2] := by
  have h := create_versions_gapless_single_latest emptyStore
    [callOne, callOther, callTwo] "DPR" "d1" rfl
  exact ⟨h.1, h.2.trans rfl⟩

/-- C6: over the history produced by a linearised run of creates on a
fresh key (`ms` = the calls targeting the key, `N = ms.length`):
requesting version `v ≥ 1` returns the record frozen by the `v`-th such
call — its `data` is that call's payload, unchanged by all later
creations, and it is latest only when `v = N`; omitting the version
returns the `is_latest` record, which carries the highest version `N`;
the route answers `NotFound` (HTTP 404) for any version beyond `N` and
for every request when the key has no snapshots. -/
theorem get_snapshot_versioned_history
    (st : Store) (cs : List CreateCall) (et ei : String) (u : User)
    (h0 : snapshotsFor st et ei = []) :
    (∀ v : Nat, 1 ≤ v →
      SnapshotService.get_snapshot (applyCreates st cs) et ei (some v) =
        ((cs.filter (fun c => matchesKey c et ei))[v - 1]?).map
          (fun c => mkSnap c v
            (v == (cs.filter (fun c => matchesKey c et ei)).length))) ∧
    (SnapshotService.get_snapshot (applyCreates st cs) et ei none =
      ((cs.filter (fun c => matchesKey c et ei))[(cs.filter
          (fun c => matchesKey c et ei)).length - 1]?).map
        (fun c => mkSnap c (cs.filter (fun c => matchesKey c et ei)).length true)) ∧
    (∀ v : Nat, (cs.filter (fun c => matchesKey c et ei)).length < v →
      get_entity_snapshot (applyCreates st cs) u et ei (some v) =
        (.error (.notFound "Snapshot not found"), applyCreates st cs)) ∧
    (cs.filter (fun c => matchesKey c et ei) = [] →
      ∀ vo : Option Nat, get_entity_snapshot (applyCreates st cs) u et ei vo =
        (.error (.notFound "Snapshot not found"), applyCreates st cs)) := by
  have hrun := snapshotsFor_run st cs et ei h0
  have hsome : ∀ v : Nat, 1 ≤ v →
      SnapshotService.get_snapshot (applyCreates st cs) et ei (some v) =
        ((cs.filter (fun c => matchesKey c et ei))[v - 1]?).map
          (fun c => mkSnap c v
            (v == (cs.filter (fun c => matchesKey c et ei)).length)) := by
    intro v hv
    show (snapshotsFor (applyCreates st cs) et ei).find? (fun s => s.version == v) = _
    rw [hrun, find?_version_reverse _ _ _ hv]
  refine ⟨hsome, ?_, ?_, ?_⟩
  · show (snapshotsFor (applyCreates st cs) et ei).find? (fun s => s.is_latest) = _
    rw [hrun, find?_latest_reverse]
  · intro v hv
    have hnone : SnapshotService.get_snapshot (applyCreates st cs) et ei (some v) = none := by
      rw [hsome v (by omega)]
      rw [List.getElem?_eq_none (by omega)]
      rfl
    unfold get_entity_snapshot
    rw [hnone]
  · intro hms vo
    have hfib : snapshotsFor (applyCreates st cs) et ei = [] := by
      rw [hrun, hms]
      rfl
    have hnone : SnapshotService.get_snapshot (applyCreates st cs) et ei vo = none := by
      unfold SnapshotService.get_snapshot
      cases vo <;> rw [hfib] <;> rfl
    unfold get_entity_snapshot
    rw [hnone]

/-- Witness for C6: after creating v1 with `sampleData` and v2 with
`sampleData2` (another key interleaved), version 1 still returns the
original payload and is no longer latest, the no-version read returns the
v2 record marked latest, and version 3 is `NotFound`. -/
theorem get_snapshot_versioned_history_witness :
    SnapshotService.get_snapshot (applyCreates emptyStore [callOne, callOther, callTwo])
        "DPR" "d1" (some 1) = some (mkSnap callOne 1 false) ∧
    SnapshotService.get_snapshot (applyCreates emptyStore [callOne, callOther, callTwo])
        "DPR" "d1" none = some (mkSnap callTwo 2 true) ∧
    get_entity_snapshot (applyCreates emptyStore [callOne, callOther, callTwo])
        orgAUser "DPR" "d1" (some 3) =
      (.error (.notFound "Snapshot not found"),
       applyCreates emptyStore [callOne, callOther, callTwo]) := by
  have h := get_snapshot_versioned_history emptyStore [callOne, callOther, callTwo]
    "DPR" "d1" orgAUser rfl
  exact ⟨(h.1 1 (by omega)).trans rfl, h.2.1.trans rfl, h.2.2.1 3 (by decide)⟩

/-- C7: verifying a snapshot immediately after its creation succeeds with
`valid = true` — the checksum recomputed over the stored data with the
canonical serialisation equals the stored `data_checksum` — and the
verification route hands back the store unchanged. -/
theorem verify_after_create_valid (st : Store) (u : User) (c : CreateCall)
    (horg : c.organisation_id = u.organisation_id) :
    verify_snapshot_integrity (SnapshotService.create_snapshot st c).2 u
        c.entity_type c.entity_id (maxVersion st c.entity_type c.entity_id + 1) =
      (.ok { valid := true,
             expected_checksum := checksumOf c.data,
             actual_checksum := checksumOf c.data },
       (SnapshotService.create_snapshot st c).2) := by
  have hmk : (SnapshotService.create_snapshot st c).1 =
      mkSnap c (maxVersion st c.entity_type c.entity_id + 1) true := rfl
  have hstep : snapshotsFor (SnapshotService.create_snapshot st c).2
      c.entity_type c.entity_id =
      histStep (snapshotsFor st c.entity_type c.entity_id) c := by
    rw [snapshotsFor_create, if_pos (by simp [matchesKey])]
  have hget : SnapshotService.get_snapshot (SnapshotService.create_snapshot st c).2
      c.entity_type c.entity_id (some (maxVersion st c.entity_type c.entity_id + 1)) =
      some (mkSnap c (maxVersion st c.entity_type c.entity_id + 1) true) := by
    show (snapshotsFor (SnapshotService.create_snapshot st c).2
        c.entity_type c.entity_id).find? _ = _
    rw [hstep]
    show List.find? _ (mkSnap c (maxOf (snapshotsFor st c.entity_type c.entity_id) + 1)
        true :: _) = _
    rw [List.find?_cons_of_pos _ (by
      show ((mkSnap c _ true).version == _) = true
      exact beq_self_eq_true _)]
    rfl
  have hver : SnapshotService.verify_checksum (SnapshotService.create_snapshot st c).2
      c.entity_type c.entity_id (maxVersion st c.entity_type c.entity_id + 1) =
      some { valid := true,
             expected_checksum := checksumOf c.data,
             actual_checksum := checksumOf c.data } := by
    unfold SnapshotService.verify_checksum
    rw [hget]
    have hd : (mkSnap c (maxVersion st c.entity_type c.entity_id + 1) true).data =
        c.data := rfl
    have hc : (mkSnap c (maxVersion st c.entity_type c.entity_id + 1) true).data_checksum =
        checksumOf c.data := rfl
    simp [hd, hc]
  unfold verify_snapshot_integrity
  rw [hget, hver]
  dsimp only
  have horgs : (mkSnap c (maxVersion st c.entity_type c.entity_id + 1) true).organisation_id =
      u.organisation_id := horg
  rw [if_neg (by simp [horgs])]

/-- Witness for C7 at a concrete creation from the empty store. -/
theorem verify_after_create_valid_witness :
    verify_snapshot_integrity (SnapshotService.create_snapshot emptyStore callOne).2
        orgAUser "DPR" "d1" 1 =
      (.ok { valid := true,
             expected_checksum := checksumOf sampleData,
             actual_checksum := checksumOf sampleData },
       (SnapshotService.create_snapshot emptyStore callOne).2) :=
  verify_after_create_valid emptyStore orgAUser callOne rfl

/-- C9: when the admin-notification side effect fails, the DPR submission
still completes: the caller receives the same success result as on the
notification-success path, the failure is reported as a warning on the
observability log, the immutable snapshot for the DPR is present in the
final store with the freshly allocated version and the latest flag, and
the live DPR is marked submitted and locked. -/
theorem submit_dpr_notification_failure_tolerated (st : Store) (u : User) (id : String)
    (now : Nat) (pdfOk : Bool) (dpr : Dpr)
    (hfind : st.dprs.find? (fun d => d.dpr_id == id) = some dpr)
    (horg : dpr.organisation_id = u.organisation_id)
    (hlock : dpr.locked_flag = false)
    (himg : 4 ≤ dpr.image_count) :
    (submit_dpr st u id now pdfOk false).1 =
      .ok { dpr_id := id, status := "submitted", pdf_generated := pdfOk,
            snapshot_version := maxVersion st "DPR" id + 1, locked := true,
            message := "DPR submitted successfully with immutable snapshot" } ∧
    (submit_dpr st u id now pdfOk false).1 = (submit_dpr st u id now pdfOk true).1 ∧
    LogEntry.warning "[DPR] Failed to create notification" ∈
      (submit_dpr st u id now pdfOk false).2.logs ∧
    (∃ s ∈ (submit_dpr st u id now pdfOk false).2.snapshots,
      s.entity_type = "DPR" ∧ s.entity_id = id ∧
      s.version = maxVersion st "DPR" id + 1 ∧ s.is_latest = true) ∧
    (∀ d ∈ (submit_dpr st u id now pdfOk false).2.dprs,
      d.dpr_id = id → d.locked_flag = true ∧ d.status = "submitted") := by
  have hsub : ∀ nOk : Bool, submit_dpr st u id now pdfOk nOk =
      (.ok { dpr_id := id, status := "submitted", pdf_generated := pdfOk,
             snapshot_version := maxVersion st "DPR" id + 1, locked := true,
             message := "DPR submitted successfully with immutable snapshot" },
       (let st1 := updateDpr st id (fun d =>
          { d with pdf_generated := pdfOk,
                   pdf_checksum := if pdfOk then some ("pdf-" ++ dpr.dpr_id) else none });
        let sres := SnapshotService.create_snapshot st1
          { entity_type := "DPR", entity_id := id,
            organisation_id := u.organisation_id, user_id := u.user_id,
            now := now, data := build_dpr_snapshot dpr };
        let st3 := updateDpr sres.2 id (fun d =>
          { d with status := "submitted", locked_flag := true,
                   locked_snapshot_version := some sres.1.version });
        if nOk then
          { st3 with
            notifications :=
              { organisation_id := u.organisation_id, recipient_role := "admin",
                title := "New DPR Submitted", reference_id := id,
                sender_id := u.user_id } :: st3.notifications,
            logs := .info ("[DPR] Notification sent to admin for DPR " ++ id) ::
              st3.logs }
        else
          { st3 with
            logs := .warning "[DPR] Failed to create notification" :: st3.logs })) := by
    intro nOk
    unfold submit_dpr
    rw [hfind]
    dsimp only
    rw [if_neg (by simp [horg]), if_neg (by simp [hlock]), if_neg (by omega)]
    rfl
  refine ⟨?_, ?_, ?_, ?_, ?_⟩
  · rw [hsub false]
  · rw [hsub false, hsub true]
  · rw [hsub false]
    exact List.mem_cons_self _ _
  · rw [hsub false]
    exact ⟨_, List.mem_cons_self _ _, rfl, rfl, rfl, rfl⟩
  · have hdprs : (submit_dpr st u id now pdfOk false).2.dprs =
        (st.dprs.map (fun d => if d.dpr_id == id then
          { d with pdf_generated := pdfOk,
                   pdf_checksum := if pdfOk then some ("pdf-" ++ dpr.dpr_id) else none }
          else d)).map (fun d => if d.dpr_id == id then
          { d with status := "submitted", locked_flag := true,
                   locked_snapshot_version := some (maxVersion st "DPR" id + 1) }
          else d) := by
      rw [hsub false]
      rfl
    intro d hd hid
    rw [hdprs] at hd
    rcases List.mem_map.mp hd with ⟨d1, hd1, rfl⟩
    by_cases hcase : (d1.dpr_id == id) = true
    · rw [if_pos hcase]
      exact ⟨rfl, rfl⟩
    · rw [if_neg hcase] at hid ⊢
      exact absurd (beq_iff_eq.mpr hid) hcase

/-- Witness for C9: a draft org-A DPR is submitted while the notification
insert fails; the caller still receives the success result (version 1
snapshot), identical to the success-path response, and the warning is
logged. -/
theorem submit_dpr_notification_failure_tolerated_witness :
    (submit_dpr submitStore orgAUser "d2" 30 true false).1 =
      .ok { dpr_id := "d2", status := "submitted", pdf_generated := true,
            snapshot_version := 1, locked := true,
            message := "DPR submitted successfully with immutable snapshot" } ∧
    (submit_dpr submitStore orgAUser "d2" 30 true false).1 =
      (submit_dpr submitStore orgAUser "d2" 30 true true).1 ∧
    LogEntry.warning "[DPR] Failed to create notification" ∈
      (submit_dpr submitStore orgAUser "d2" 30 true false).2.logs := by
  have h := submit_dpr_notification_failure_tolerated submitStore orgAUser "d2" 30 true
    draftDpr rfl rfl rfl (by decide)
  exact ⟨h.1, h.2.1, h.2.2.1⟩

end TacPmc
